import Mathlib

/-!
# Verification of the guardian-compass dropout-risk prediction pipeline

A shallow embedding of the dropout-risk prediction pipeline of the
guardian-compass repository: feature extraction, preprocessing,
training with class-imbalance correction, prediction with risk
banding, the model store, and the SQL-level defaults of the
`students` table.  The Python ML implementation (`app/ml/model.py`,
`app/services/ml_service.py`) is not shipped in the repository — only
its documentation (`backend/IMPLEMENTATION_SUMMARY.md`,
`backend/docs/*`), the SQL migration and the frontend are — so the
pipeline definitions below are modelled from the specification, while
the `students`-table defaults are translated from the SQL migration
`supabase/migrations/20260124065201_*.sql`.

Probabilities and feature values are represented by rationals `ℚ`;
the risk thresholds 0.33 and 0.67 are exact rationals, as are the
boundary test inputs, so the banding claims are settled exactly.
-/

namespace GuardianCompass

/-! ## Risk banding -/

/-- The three risk bands.  Matches the `risk_level` enum of the SQL
migration (`'low' | 'medium' | 'high'`) and the backend's
`Low`/`Medium`/`High` categorisation. -/
inductive RiskLevel where
  | low
  | medium
  | high
deriving DecidableEq, Repr

/-- Modelled from the spec: the risk-banding function of the Predictor
(`backend/IMPLEMENTATION_SUMMARY.md` "Risk Levels", spec §4.4); the
Python function that implements it (`app/ml/model.py`) is not in the
repository.  Fixed thresholds: `risk_score < 0.33 → Low`,
`0.33 ≤ risk_score < 0.67 → Medium`, `risk_score ≥ 0.67 → High`. -/
def riskLevelOf (risk_score : ℚ) : RiskLevel :=
  if risk_score < 33/100 then .low
  else if risk_score < 67/100 then .medium
  else .high

/-! ## Canonical feature schema -/

/-- The canonical ordered 14-feature schema of §3 of the spec. -/
def canonicalSchema : List String :=
  ["gpa", "gpa_previous", "gpa_trend", "attendance_rate",
   "attendance_trend", "participation_score",
   "assignment_completion_rate", "credits_enrolled",
   "failed_courses_count", "disciplinary_incidents_count",
   "financial_aid", "parent_education_level", "motivation_score",
   "stress_level"]

/-- `StudentFeatures` is a named, ordered mapping from feature name to
numeric value (spec §3): an association list kept in schema order. -/
abbrev StudentFeatures := List (String × ℚ)

/-! ## Feature extraction -/

/-- One row of the `academic_records` history (SQL migration /
backend schema): a period's GPA, attendance percentage and assignment
counts.  History lists are ordered most-recent-first. -/
structure AcademicHistoryRecord where
  semester : String
  gpa : ℚ
  attendance_percentage : ℚ
  assignments_completed : ℕ
  total_assignments : ℕ
deriving DecidableEq, Repr

/-- One row of the `attendance_records` history: `present` is
`status == "present"`. -/
structure AttendanceHistoryRecord where
  date : String
  present : Bool
deriving DecidableEq, Repr

/-- One row of the `behavioral_records` history (a disciplinary
incident). -/
structure BehavioralHistoryRecord where
  date : String
  incident_type : String
deriving DecidableEq, Repr

/-- A raw student snapshot as handed to the Feature Extractor: every
source field may be missing/null (spec §6 feature-source input, SQL
`students` columns are nullable from the extractor's point of view). -/
structure RawStudentRecord where
  student_id : String
  gpa : Option ℚ
  attendance_rate : Option ℚ
  participation_score : Option ℚ
  credits_enrolled : Option ℚ
  failed_courses_count : Option ℚ
  financial_aid : Option Bool
  parent_education_level : Option ℕ
  motivation_score : Option ℚ
  stress_level : Option ℚ
deriving DecidableEq, Repr

/-- Modelled from the spec (§4.1): `attendance_rate` is
`count(status == present) / count(all attendance records)` when
history is present, else the student's stored percentage, else the
0.0 worst-case default.  The Python extractor
(`ml_service._calculate_attendance_rate`) is not in the repository. -/
def attendanceRateOf (raw : RawStudentRecord)
    (att : List AttendanceHistoryRecord) : ℚ :=
  if att.length = 0 then raw.attendance_rate.getD 0
  else (att.countP (fun r => r.present) : ℚ) / (att.length : ℚ)

/-- Modelled from the spec (§4.1): `assignment_completion_rate` is
`sum(assignments_completed) / sum(total_assignments)` across academic
records, 0.0 when no assignments are recorded.  The Python
`ml_service._calculate_completion_rate` is not in the repository. -/
def completionRateOf (acad : List AcademicHistoryRecord) : ℚ :=
  let total : ℕ := acad.foldl (fun n r => n + r.total_assignments) 0
  let completed : ℕ := acad.foldl (fun n r => n + r.assignments_completed) 0
  if total = 0 then 0
  else (completed : ℚ) / (total : ℚ)

/-- Modelled from the spec (§3, §4.1):
`extract(raw_student_record, history_records) -> StudentFeatures`.
The Python `DropoutPredictionModel.extract_features` is not in the
repository.  Produces the 14 canonical features in canonical order;
every missing/null source field is replaced by its fixed default
(0 for counts, midpoint 5 for the 1-10 psychological scales, 0.0 for
rates); `gpa_trend = gpa − gpa_previous` and the trends are 0.0 when
fewer than two history periods exist.  The result type contains no
optional values, so the vector is fully populated by construction. -/
def extract (raw : RawStudentRecord) (acad : List AcademicHistoryRecord)
    (att : List AttendanceHistoryRecord)
    (behav : List BehavioralHistoryRecord) : StudentFeatures :=
  let gpa := raw.gpa.getD 0
  let gpa_previous :=
    match acad with
    | _ :: p :: _ => p.gpa
    | _ => gpa
  let attendance_trend :=
    match acad with
    | r :: p :: _ => r.attendance_percentage - p.attendance_percentage
    | _ => 0
  [("gpa", gpa),
   ("gpa_previous", gpa_previous),
   ("gpa_trend", gpa - gpa_previous),
   ("attendance_rate", attendanceRateOf raw att),
   ("attendance_trend", attendance_trend),
   ("participation_score", raw.participation_score.getD 5),
   ("assignment_completion_rate", completionRateOf acad),
   ("credits_enrolled", raw.credits_enrolled.getD 0),
   ("failed_courses_count", raw.failed_courses_count.getD 0),
   ("disciplinary_incidents_count", (behav.length : ℚ)),
   ("financial_aid", if raw.financial_aid.getD false then 1 else 0),
   ("parent_education_level", (raw.parent_education_level.getD 0 : ℚ)),
   ("motivation_score", raw.motivation_score.getD 5),
   ("stress_level", raw.stress_level.getD 5)]

/-- A raw record with every optional source field missing. -/
def emptyRawStudent (sid : String) : RawStudentRecord :=
  { student_id := sid, gpa := none, attendance_rate := none,
    participation_score := none, credits_enrolled := none,
    failed_courses_count := none, financial_aid := none,
    parent_education_level := none, motivation_score := none,
    stress_level := none }

/-! ## Preprocessor -/

/-- Per-feature standardisation parameters learned at training time
(spec §4.2; the backend uses scikit-learn's `StandardScaler`). -/
structure ScalerParams where
  mean : List ℚ
  scale : List ℚ
deriving DecidableEq, Repr

/-- Standardise a numeric vector with stored parameters; a zero scale
maps the coordinate to 0 instead of dividing by zero. -/
def standardize (p : ScalerParams) (x : List ℚ) : List ℚ :=
  (x.zip (p.mean.zip p.scale)).map
    (fun v => if v.2.2 = 0 then 0 else (v.1 - v.2.1) / v.2.2)

/-- The error taxonomy of spec §7. -/
inductive MLError where
  | schemaMismatch (expected got : List String)
  | modelNotTrained
  | insufficientData
  | invalidLabel
deriving DecidableEq, Repr

/-- Modelled from the spec (§4.2): `transform` rejects any input
whose feature names disagree with the schema recorded in the
TrainedModel (no best-effort column alignment) and otherwise
standardises the values with the stored scaler parameters, never
refitting them.  The Python preprocessing code (`app/ml/model.py`)
is not in the repository. -/
def transform (schema : List String) (scaler : ScalerParams)
    (features : StudentFeatures) : Except MLError (List ℚ) :=
  if features.map Prod.fst = schema then
    Except.ok (standardize scaler (features.map Prod.snd))
  else
    Except.error (MLError.schemaMismatch schema (features.map Prod.fst))

/-! ## Trained model -/

/-- The two supported algorithms (spec §3, backend docs). -/
inductive Algorithm where
  | random_forest
  | logistic_regression
deriving DecidableEq, Repr

/-- Training metadata carried by a `TrainedModel` (spec §3). -/
structure ModelMetadata where
  trained_at : ℕ
  sample_count : ℕ
  metrics : List (String × ℚ)
deriving DecidableEq, Repr

/-- Modelled from the spec (§3): a `TrainedModel` owns the fitted
classifier parameters, the fitted scaler parameters, the ordered
feature-name schema, the algorithm identifier, and training metadata
with per-feature importance weights.  Immutable by construction.  The
Python `DropoutPredictionModel` is not in the repository. -/
structure TrainedModel where
  algorithm : Algorithm
  coefficients : List ℚ
  intercept : ℚ
  scaler : ScalerParams
  feature_names : List String
  feature_importances : List (String × ℚ)
  metadata : ModelMetadata
deriving DecidableEq, Repr

/-- Clamp a rational into `[0,1]`. -/
def clamp01 (x : ℚ) : ℚ := max 0 (min 1 x)

/-- Dot product of two coefficient/feature vectors. -/
def dotProduct : List ℚ → List ℚ → ℚ
  | [], _ => 0
  | _, [] => 0
  | a :: as, b :: bs => a * b + dotProduct as bs

/-- Modelled from the spec (§4.4): the classifier's
probability-of-positive-class on a standardized vector.  The fitted
scikit-learn classifier of the missing `app/ml/model.py` is modelled
as a clamped linear score over the standardized features,
parameterised by the fitted coefficients and intercept; the claims
below depend only on the result being a deterministic function of the
model parameters and the input in `[0,1]`. -/
def predictProba (m : TrainedModel) (z : List ℚ) : ℚ :=
  clamp01 (m.intercept + dotProduct m.coefficients z)

/-- Modelled from the spec (§4.4): `confidence` is the distance of
`risk_score` from the nearest band boundary, normalised into
`[0,1]`. -/
def confidenceOf (s : ℚ) : ℚ :=
  clamp01 (min |s - 33/100| |s - 67/100| / (33/100))

/-- One contributing factor of a prediction (spec §3, API reference:
feature name, raw value, global importance, signed contribution). -/
structure Factor where
  factor : String
  value : ℚ
  importance : ℚ
  contribution : ℚ
deriving DecidableEq, Repr

/-- Insert into a list kept descending by `key`. -/
def insertDescBy (key : Factor → ℚ) (x : Factor) :
    List Factor → List Factor
  | [] => [x]
  | y :: ys =>
      if key y < key x then x :: y :: ys else y :: insertDescBy key x ys

/-- Insertion sort, descending by `key`. -/
def sortDescBy (key : Factor → ℚ) : List Factor → List Factor
  | [] => []
  | x :: xs => insertDescBy key x (sortDescBy key xs)

/-- Modelled from the spec (§4.4): per feature, contribution = global
importance weight × signed standardized deviation; the top 5 by
absolute contribution, descending, are returned.  The Python
`_get_contributing_factors` is not in the repository. -/
def contributingFactors (m : TrainedModel) (raw z : List ℚ) :
    List Factor :=
  let imp := fun n => (m.feature_importances.lookup n).getD 0
  let all := (m.feature_names.zip (raw.zip z)).map
    (fun t => { factor := t.1, value := t.2.1, importance := imp t.1,
                contribution := imp t.1 * t.2.2 : Factor })
  (sortDescBy (fun f => |f.contribution|) all).take 5

/-! ## Predictor -/

/-- A prediction result (spec §3): created fresh per inference call,
never mutated. -/
structure Prediction where
  student_id : String
  risk_score : ℚ
  risk_level : RiskLevel
  confidence : ℚ
  contributing_factors : List Factor
deriving DecidableEq, Repr

/-- A per-item batch error, tagged with the identity of the failing
item (spec §4.4 partial-failure policy). -/
inductive BatchItemError where
  | schemaMismatch (student_id : String)
deriving DecidableEq, Repr

/-- Modelled from the spec (§4.4):
`predict_one(features, model) -> Prediction`.  Pipeline per item:
`Preprocessor.transform` → classifier probability → `risk_score`;
`risk_level` is derived deterministically from `risk_score` by the
fixed banding; schema validation failure yields an error tagged with
the item's identity.  The Python `DropoutPredictionModel.predict` is
not in the repository. -/
def predict_one (m : TrainedModel) (student_id : String)
    (features : StudentFeatures) : Except BatchItemError Prediction :=
  match transform m.feature_names m.scaler features with
  | Except.error _ => Except.error (BatchItemError.schemaMismatch student_id)
  | Except.ok z =>
      let s := predictProba m z
      Except.ok
        { student_id := student_id
          risk_score := s
          risk_level := riskLevelOf s
          confidence := confidenceOf s
          contributing_factors :=
            contributingFactors m (features.map Prod.snd) z }

/-- Modelled from the spec (§4.4): batch prediction is a pure
per-item map with no cross-item coupling; a per-item failure is
captured in that item's slot instead of aborting the batch.  The
Python `MLService.predict_batch` is not in the repository. -/
def predict_batch (m : TrainedModel)
    (items : List (String × StudentFeatures)) :
    List (Except BatchItemError Prediction) :=
  items.map (fun it => predict_one m it.1 it.2)

/-! ## Model persistence -/

/-- The persisted artifact: algorithm tag as a plain string plus the
flattened classifier, scaler, schema and metadata (spec §4.5, §6:
a single implementation-defined serialized unit). -/
structure Artifact where
  algorithm_tag : String
  coefficients : List ℚ
  intercept : ℚ
  scaler_mean : List ℚ
  scaler_scale : List ℚ
  feature_names : List String
  feature_importances : List (String × ℚ)
  trained_at : ℕ
  sample_count : ℕ
  metrics : List (String × ℚ)
deriving DecidableEq, Repr

/-- The serialized tag of an algorithm. -/
def algorithmTag : Algorithm → String
  | .random_forest => "random_forest"
  | .logistic_regression => "logistic_regression"

/-- Parse an algorithm tag back; unknown tags fail. -/
def parseAlgorithm (s : String) : Option Algorithm :=
  if s = "random_forest" then some .random_forest
  else if s = "logistic_regression" then some .logistic_regression
  else none

/-- Modelled from the spec (§4.5): `save(model)` persists the fitted
model, scaler, schema and metadata as a single artifact.  The Python
`DropoutPredictionModel.save` (joblib dump) is not in the
repository. -/
def save (m : TrainedModel) : Artifact :=
  { algorithm_tag := algorithmTag m.algorithm
    coefficients := m.coefficients
    intercept := m.intercept
    scaler_mean := m.scaler.mean
    scaler_scale := m.scaler.scale
    feature_names := m.feature_names
    feature_importances := m.feature_importances
    trained_at := m.metadata.trained_at
    sample_count := m.metadata.sample_count
    metrics := m.metadata.metrics }

/-- Modelled from the spec (§4.5): `load` reconstructs a
`TrainedModel` from a persisted artifact; a corrupt algorithm tag
fails.  The Python `DropoutPredictionModel.load` is not in the
repository. -/
def load (a : Artifact) : Option TrainedModel :=
  match parseAlgorithm a.algorithm_tag with
  | none => none
  | some algo =>
      some
        { algorithm := algo
          coefficients := a.coefficients
          intercept := a.intercept
          scaler := { mean := a.scaler_mean, scale := a.scaler_scale }
          feature_names := a.feature_names
          feature_importances := a.feature_importances
          metadata :=
            { trained_at := a.trained_at
              sample_count := a.sample_count
              metrics := a.metrics } }

/-- `get_feature_importance` of the backend model: the stored global
importance weights. -/
def get_feature_importance (m : TrainedModel) : List (String × ℚ) :=
  m.feature_importances

/-! ## Trainer: class-imbalance correction -/

/-- A labeled training example: a numeric feature vector plus the
binary `dropped_out` label (spec §3). -/
abbrev LabeledSample := List ℚ × Bool

/-- A train/validation split of a labeled dataset (spec §4.3). -/
structure TrainValidSplit where
  train : List LabeledSample
  valid : List LabeledSample
deriving DecidableEq, Repr

/-- Count of positive-label (`dropped_out = true`) examples. -/
def countTrue (l : List LabeledSample) : ℕ :=
  l.countP (fun s => s.2)

/-- Count of negative-label examples. -/
def countFalse (l : List LabeledSample) : ℕ :=
  l.countP (fun s => !s.2)

/-- The minority label of a labeled list: `true` when the positive
class is strictly smaller, else `false`. -/
def minorityLabel (l : List LabeledSample) : Bool :=
  countTrue l < countFalse l

/-- The feature vectors of the minority class. -/
def minoritySamples (l : List LabeledSample) : List (List ℚ) :=
  if minorityLabel l then (l.filter (fun s => s.2)).map Prod.fst
  else (l.filter (fun s => !s.2)).map Prod.fst

/-- Linear interpolation between two feature vectors:
`a + lam * (b - a)` componentwise. -/
def interpolate (a b : List ℚ) (lam : ℚ) : List ℚ :=
  (a.zip b).map (fun p => p.1 + lam * (p.2 - p.1))

/-- A deterministic linear-congruential step, threading the fixed
random seed of spec §4.3 through the oversampling. -/
def lcgNext (state : ℕ) : ℕ :=
  (state * 1103515245 + 12345) % 2147483648

/-- Squared euclidean distance between two feature vectors. -/
def sqDist (a b : List ℚ) : ℚ :=
  ((a.zip b).map (fun p => (p.1 - p.2) * (p.1 - p.2))).sum

/-- Insert a vector into a list kept ascending by distance to `a`. -/
def insertByDist (a x : List ℚ) : List (List ℚ) → List (List ℚ)
  | [] => [x]
  | y :: ys =>
      if sqDist a x ≤ sqDist a y then x :: y :: ys
      else y :: insertByDist a x ys

/-- Insertion sort by distance to `a`, ascending. -/
def sortByDist (a : List ℚ) : List (List ℚ) → List (List ℚ)
  | [] => []
  | x :: xs => insertByDist a x (sortByDist a xs)

/-- The `k` nearest neighbors of `a` among `xs` in feature space. -/
def nearestNeighbors (k : ℕ) (a : List ℚ) (xs : List (List ℚ)) :
    List (List ℚ) :=
  (sortByDist a xs).take k

/-- Modelled from the spec (§4.3, SMOTE): one synthetic minority
sample for a given seed — a random minority base sample interpolated
toward one of its 5 nearest minority neighbors by a random
`lam ∈ [0,1]`.  The Python SMOTE invocation (imbalanced-learn inside
the missing `app/ml/model.py`) is not in the repository. -/
def syntheticSample (minority : List (List ℚ)) (seed : ℕ) : List ℚ :=
  match minority with
  | [] => []
  | m0 :: _ =>
      let r1 := lcgNext seed
      let a := minority.getD (r1 % minority.length) m0
      let nbrs := nearestNeighbors 5 a minority
      let r2 := lcgNext r1
      let b := nbrs.getD (r2 % nbrs.length) a
      let r3 := lcgNext r2
      interpolate a b ((r3 % 1000 : ℕ) / 1000)

/-- Modelled from the spec (§4.3 step c): synthetic oversampling of
the minority class until classes are balanced — `|n₀ − n₁|` new
minority-labeled interpolated samples are appended to the training
data.  The Python SMOTE call is not in the repository. -/
def classBalance (seed : ℕ) (train : List LabeledSample) :
    List LabeledSample :=
  if countTrue train = countFalse train then train
  else
    train ++ (List.range (max (countTrue train) (countFalse train) -
      min (countTrue train) (countFalse train))).map
      (fun i => (syntheticSample (minoritySamples train) (seed + i),
        minorityLabel train))

/-- Class-imbalance correction is applied to the training split only,
never to validation (spec §4.3). -/
def applyImbalanceCorrection (seed : ℕ) (s : TrainValidSplit) :
    TrainValidSplit :=
  { train := classBalance seed s.train, valid := s.valid }

/-! ## Trainer: fitting and the model store -/

/-- Column-wise mean of a list of equal-length vectors (0 for an
empty column). -/
def columnMeans (dim : ℕ) (xs : List (List ℚ)) : List ℚ :=
  (List.range dim).map (fun j =>
    if xs.length = 0 then 0
    else ((xs.map (fun x => x.getD j 0)).sum) / (xs.length : ℚ))

/-- Modelled from the spec (§4.2 `fit`): learn per-feature
mean/spread statistics from the training split.  The spread is the
per-feature mean squared deviation (the scikit-learn `StandardScaler`
of the missing code stores the standard deviation, whose square root
is not rational; no claim below depends on the spread's exact
form). -/
def fitScaler (dim : ℕ) (xs : List (List ℚ)) : ScalerParams :=
  let mu := columnMeans dim xs
  { mean := mu
    scale := (List.range dim).map (fun j =>
      if xs.length = 0 then 1
      else ((xs.map (fun x => (x.getD j 0 - mu.getD j 0) *
        (x.getD j 0 - mu.getD j 0))).sum) / (xs.length : ℚ)) }

/-- Modelled from the spec (§4.3 step d): the fitted classifier
parameters.  The scikit-learn fitting algorithm of the missing
`app/ml/model.py` is modelled as the difference of standardized
class means (a linear discriminant direction); no claim below depends
on the fitted values. -/
def fitClassifier (scaler : ScalerParams) (dim : ℕ)
    (balanced : List LabeledSample) : List ℚ :=
  let pos := (balanced.filter (fun s => s.2)).map
    (fun s => standardize scaler s.1)
  let neg := (balanced.filter (fun s => !s.2)).map
    (fun s => standardize scaler s.1)
  let mp := columnMeans dim pos
  let mn := columnMeans dim neg
  (mp.zip mn).map (fun p => p.1 - p.2)

/-- Modelled from the spec (§4.3 steps a, seed-threaded): a
deterministic stratified split — every `⌈1/validation_split⌉`-th
example of each class goes to validation.  The scikit-learn
`train_test_split` of the missing code is not in the repository. -/
def stratifiedSplit (validation_split : ℚ) (dataset : List LabeledSample) :
    TrainValidSplit :=
  let stride : ℕ := if validation_split ≤ 0 then dataset.length + 1
    else max 1 (1 / validation_split).ceil.toNat
  let idx := (List.range dataset.length).zip dataset
  { train := (idx.filter (fun p => ¬ p.1 % stride = 0)).map Prod.snd
    valid := (idx.filter (fun p => p.1 % stride = 0)).map Prod.snd }

/-- Modelled from the spec (§4.3 step e): validation accuracy of the
modelled classifier. -/
def validationAccuracy (m : TrainedModel) (valid : List LabeledSample) : ℚ :=
  if valid.length = 0 then 0
  else (valid.countP (fun s =>
    (decide ((1:ℚ)/2 ≤ predictProba m (standardize m.scaler s.1))) == s.2) : ℚ)
    / (valid.length : ℚ)

/-- Modelled from the spec (§4.3 step f): global feature importances,
the absolute coefficient magnitudes normalized to sum to 1. -/
def importancesOf (names : List String) (coeffs : List ℚ) :
    List (String × ℚ) :=
  let total := (coeffs.map (fun c => |c|)).sum
  (names.zip coeffs).map (fun p =>
    (p.1, if total = 0 then 0 else |p.2| / total))

/-- Modelled from the spec (§4.3):
`train(dataset, algorithm, validation_split) -> (TrainedModel, metrics)`.
Precondition: at least two examples of each class, otherwise the call
fails with `InsufficientDataError`; on success the steps are split,
fit scaler on the training split, balance classes (training split
only), fit the classifier on the balanced split, evaluate on the
untouched validation split.  The Python
`DropoutPredictionModel.train` is not in the repository. -/
def train (dataset : List LabeledSample) (algo : Algorithm)
    (validation_split : ℚ) (seed : ℕ) :
    Except MLError (TrainedModel × List (String × ℚ)) :=
  if countTrue dataset < 2 ∨ countFalse dataset < 2 then
    Except.error MLError.insufficientData
  else
    let dim := canonicalSchema.length
    let split := stratifiedSplit validation_split dataset
    let scaler := fitScaler dim (split.train.map Prod.fst)
    let balanced := applyImbalanceCorrection seed split
    let coeffs := fitClassifier scaler dim balanced.train
    let model : TrainedModel :=
      { algorithm := algo
        coefficients := coeffs
        intercept := 1/2
        scaler := scaler
        feature_names := canonicalSchema
        feature_importances := importancesOf canonicalSchema coeffs
        metadata :=
          { trained_at := seed
            sample_count := dataset.length
            metrics := [] } }
    let metrics := [("accuracy", validationAccuracy model split.valid)]
    Except.ok ({ model with metadata :=
      { model.metadata with metrics := metrics } }, metrics)

/-- The process-wide model store: at most one current model
(spec §4.5, `MLService._model_instance`). -/
structure ModelStore where
  current : Option TrainedModel
deriving DecidableEq, Repr

/-- Modelled from the spec (§4.3 output, §7): the training entry
point of the service layer; a failing training call stores nothing —
the store is returned unchanged — and a successful call replaces the
current model wholesale only when the caller's `save_model` flag is
set.  The Python `MLService.train_model` is not in the repository. -/
def train_and_store (store : ModelStore) (dataset : List LabeledSample)
    (algo : Algorithm) (validation_split : ℚ) (seed : ℕ)
    (save_model : Bool) :
    ModelStore × Except MLError (List (String × ℚ)) :=
  match train dataset algo validation_split seed with
  | Except.error e => (store, Except.error e)
  | Except.ok (m, metrics) =>
      (if save_model then { current := some m } else store,
       Except.ok metrics)

/-! ## Model store: atomic replacement -/

/-- An event at the model-store boundary: an atomic reference swap
installing a freshly trained model, or a reader taking the current
reference (spec §5: replacement is a single atomic pointer swap). -/
inductive StoreOp where
  | swap (m : TrainedModel)
  | read
deriving DecidableEq, Repr

/-- Modelled from the spec (§4.5, §5): the store interleaving
semantics.  The state is the single current reference; `swap`
replaces it in one step and `read` observes the whole current
reference.  Returns the sequence of observations the readers make. -/
def runStore (cur : Option TrainedModel) :
    List StoreOp → List (Option TrainedModel)
  | [] => []
  | StoreOp.swap m :: ops => runStore (some m) ops
  | StoreOp.read :: ops => cur :: runStore cur ops

/-! ## SQL: `students` table defaults -/

/-- An `INSERT` into `public.students` from the frontend/API: the
columns with SQL defaults may be omitted.  Translated from
`supabase/migrations/20260124065201_a55771a1-7c46-4c11-9013-46cad84b329a.sql`
lines 49-66. -/
structure StudentInsertRow where
  student_id : String
  full_name : String
  email : String
  department : String
  semester : Option ℕ
  attendance_percentage : Option ℚ
  gpa : Option ℚ
  risk_level : Option RiskLevel
  risk_score : Option ℚ
  assigned_counselor_id : Option String
deriving DecidableEq, Repr

/-- A stored row of `public.students` after defaults are applied. -/
structure StudentRow where
  student_id : String
  full_name : String
  email : String
  department : String
  semester : ℕ
  attendance_percentage : ℚ
  gpa : ℚ
  risk_level : RiskLevel
  risk_score : ℚ
  assigned_counselor_id : Option String
deriving DecidableEq, Repr

/-- Translated from the SQL migration: inserting a student row
applies the column defaults `semester 1`,
`attendance_percentage 0`, `gpa 0`, `risk_level 'low'`,
`risk_score 0` to omitted columns. -/
def insertStudent (r : StudentInsertRow) : StudentRow :=
  { student_id := r.student_id
    full_name := r.full_name
    email := r.email
    department := r.department
    semester := r.semester.getD 1
    attendance_percentage := r.attendance_percentage.getD 0
    gpa := r.gpa.getD 0
    risk_level := r.risk_level.getD RiskLevel.low
    risk_score := r.risk_score.getD 0
    assigned_counselor_id := r.assigned_counselor_id }

/-- A small concrete fixture model over a one-feature schema, used to
instantiate the hypothesis-bearing theorems at concrete inputs. -/
def demoModel : TrainedModel :=
  { algorithm := .logistic_regression
    coefficients := [1]
    intercept := 0
    scaler := { mean := [0], scale := [1] }
    feature_names := ["gpa"]
    feature_importances := [("gpa", 1)]
    metadata := { trained_at := 0, sample_count := 2, metrics := [] } }

/-- The prediction `demoModel` produces on the single input
`[("gpa", 2)]`: standardized value 2, clamped score 1, band High. -/
def demoPrediction : Prediction :=
  { student_id := "STU001"
    risk_score := 1
    risk_level := RiskLevel.high
    confidence := 1
    contributing_factors :=
      [{ factor := "gpa", value := 2, importance := 1, contribution := 2 }] }

/-! ## Basic lemmas about the banding function -/

theorem riskLevelOf_eq_low_iff (s : ℚ) :
    riskLevelOf s = .low ↔ s < 33/100 := by
  unfold riskLevelOf
  split
  · simp [*]
  · split <;> simp_all

theorem riskLevelOf_eq_medium_iff (s : ℚ) :
    riskLevelOf s = .medium ↔ 33/100 ≤ s ∧ s < 67/100 := by
  unfold riskLevelOf
  split
  · rename_i h
    simp only [reduceCtorEq, false_iff, not_and, not_lt]
    intro hc
    exact absurd h (not_lt.mpr hc)
  · rename_i h
    split <;> simp_all [not_lt.mp h]

theorem riskLevelOf_eq_high_iff (s : ℚ) :
    riskLevelOf s = .high ↔ 67/100 ≤ s := by
  unfold riskLevelOf
  split
  · rename_i h
    simp only [reduceCtorEq, false_iff, not_le]
    linarith
  · split <;> simp_all [not_lt]

/-! ## Theorems: risk banding (C1) -/

/-- **C1.** For every `risk_score` in `[0,1]` the derived band is
`Low` exactly when `risk_score < 0.33`, `Medium` exactly when
`0.33 ≤ risk_score < 0.67`, and `High` exactly when
`risk_score ≥ 0.67`; and the boundary inputs
`0.0, 0.329999, 0.33, 0.67, 0.669999, 1.0` map to
`Low, Low, Medium, High, Medium, High` respectively. -/
theorem risk_banding_thresholds (s : ℚ) (h0 : 0 ≤ s) (h1 : s ≤ 1) :
    ((riskLevelOf s = .low ↔ s < 33/100) ∧
     (riskLevelOf s = .medium ↔ 33/100 ≤ s ∧ s < 67/100) ∧
     (riskLevelOf s = .high ↔ 67/100 ≤ s)) ∧
    (riskLevelOf 0 = .low ∧
     riskLevelOf (329999/1000000) = .low ∧
     riskLevelOf (33/100) = .medium ∧
     riskLevelOf (67/100) = .high ∧
     riskLevelOf (669999/1000000) = .medium ∧
     riskLevelOf 1 = .high) := by
  refine ⟨⟨riskLevelOf_eq_low_iff s, riskLevelOf_eq_medium_iff s,
           riskLevelOf_eq_high_iff s⟩, ?_, ?_, ?_, ?_, ?_, ?_⟩
  · exact (riskLevelOf_eq_low_iff 0).mpr (by norm_num)
  · exact (riskLevelOf_eq_low_iff _).mpr (by norm_num)
  · exact (riskLevelOf_eq_medium_iff _).mpr (by norm_num)
  · exact (riskLevelOf_eq_high_iff _).mpr (by norm_num)
  · exact (riskLevelOf_eq_medium_iff _).mpr (by norm_num)
  · exact (riskLevelOf_eq_high_iff 1).mpr (by norm_num)

/-- Witness for C1 at the concrete input `1/2`. -/
theorem risk_banding_thresholds_witness :
    (0:ℚ) ≤ 1/2 ∧ (1/2:ℚ) ≤ 1 ∧ riskLevelOf (1/2) = .medium := by
  refine ⟨by norm_num, by norm_num, ?_⟩
  exact ((risk_banding_thresholds (1/2) (by norm_num)
    (by norm_num)).1.2.1).mpr (by norm_num)

/-! ## Theorems: feature extraction (C2) -/

/-- **C2.** For every valid raw student record (with or without
history records) `extract` returns exactly the 14 canonical features,
in canonical schema order, with every entry populated: the feature
names are precisely `canonicalSchema`, the length is 14, and (as the
codomain is total `ℚ`, never an optional value) no entry can be
missing; a record with every source field missing/null is mapped to
the fixed defaults — 0 for counts, 5 for the 1-10 psychological
scales, 0.0 for rates. -/
theorem extract_canonical_total (raw : RawStudentRecord)
    (acad : List AcademicHistoryRecord) (att : List AttendanceHistoryRecord)
    (behav : List BehavioralHistoryRecord) :
    (extract raw acad att behav).map Prod.fst = canonicalSchema ∧
    (extract raw acad att behav).length = 14 ∧
    canonicalSchema.length = 14 ∧
    extract (emptyRawStudent raw.student_id) [] [] [] =
      [("gpa", 0), ("gpa_previous", 0), ("gpa_trend", 0),
       ("attendance_rate", 0), ("attendance_trend", 0),
       ("participation_score", 5), ("assignment_completion_rate", 0),
       ("credits_enrolled", 0), ("failed_courses_count", 0),
       ("disciplinary_incidents_count", 0), ("financial_aid", 0),
       ("parent_education_level", 0), ("motivation_score", 5),
       ("stress_level", 5)] := by
  refine ⟨rfl, rfl, rfl, ?_⟩
  simp [extract, emptyRawStudent, attendanceRateOf, completionRateOf]

/-! ## Theorems: schema enforcement (C4) -/

/-- **C4.** `transform` fails with a `SchemaMismatch` error, and
returns no output, on every input whose feature-name set differs from
the recorded schema; in particular on any input of the wrong length
(13 features against a 14-feature schema); and it never silently
reorders or best-effort aligns columns: a successful `transform`
forces the input's feature names to equal the schema exactly. -/
theorem transform_rejects_schema_mismatch (schema : List String)
    (scaler : ScalerParams) (features : StudentFeatures) :
    ((features.map Prod.fst).toFinset ≠ schema.toFinset →
      transform schema scaler features =
        Except.error (MLError.schemaMismatch schema (features.map Prod.fst)) ∧
      ∀ v, transform schema scaler features ≠ Except.ok v) ∧
    (features.length ≠ schema.length →
      transform schema scaler features =
        Except.error (MLError.schemaMismatch schema (features.map Prod.fst))) ∧
    (∀ v, transform schema scaler features = Except.ok v →
      features.map Prod.fst = schema) := by
  refine ⟨?_, ?_, ?_⟩
  · intro hset
    have hne : features.map Prod.fst ≠ schema := by
      intro h
      exact hset (by rw [h])
    rw [transform, if_neg hne]
    exact ⟨rfl, fun v h => by cases h⟩
  · intro hlen
    have hne : features.map Prod.fst ≠ schema := by
      intro h
      have := congrArg List.length h
      rw [List.length_map] at this
      exact hlen this
    rw [transform, if_neg hne]
  · intro v hv
    by_cases h : features.map Prod.fst = schema
    · exact h
    · rw [transform, if_neg h] at hv
      cases hv

/-- Witness for C4: a 13-feature input against the 14-feature
canonical schema is rejected with a `SchemaMismatch` error. -/
theorem transform_rejects_schema_mismatch_witness :
    ((canonicalSchema.take 13).map (fun n => (n, (0:ℚ)))).length ≠
      canonicalSchema.length ∧
    transform canonicalSchema ⟨[], []⟩
        ((canonicalSchema.take 13).map (fun n => (n, (0:ℚ)))) =
      Except.error (MLError.schemaMismatch canonicalSchema
        (canonicalSchema.take 13)) := by
  have hlen : ((canonicalSchema.take 13).map
      (fun n => (n, (0:ℚ)))).length ≠ canonicalSchema.length := by
    simp [canonicalSchema]
  refine ⟨hlen, ?_⟩
  have h := (transform_rejects_schema_mismatch canonicalSchema ⟨[], []⟩
    ((canonicalSchema.take 13).map (fun n => (n, (0:ℚ))))).2.1 hlen
  rw [h]
  simp [Function.comp_def]

/-! ## Theorems: batch prediction (C3) -/

/-- **C3.** `predict_batch` on N items returns exactly N results in
input order, one per item, and each item's slot is exactly
`predict_one` of that item alone (so results cannot depend on the
other items of the batch); an item failing schema validation yields
an error tagged with its identity in its own slot, while every item
with a valid feature vector yields a successful `Prediction` tagged
with its identity — the batch never aborts wholesale. -/
theorem predict_batch_per_item (m : TrainedModel)
    (items : List (String × StudentFeatures)) :
    (predict_batch m items).length = items.length ∧
    (∀ i : ℕ, (predict_batch m items)[i]? =
      (items[i]?).map (fun it => predict_one m it.1 it.2)) ∧
    (∀ (i : ℕ) (sid : String) (feats : StudentFeatures),
      items[i]? = some (sid, feats) →
      (List.map Prod.fst feats ≠ m.feature_names →
        (predict_batch m items)[i]? =
          some (Except.error (BatchItemError.schemaMismatch sid))) ∧
      (List.map Prod.fst feats = m.feature_names →
        ∃ p, (predict_batch m items)[i]? = some (Except.ok p) ∧
          p.student_id = sid)) := by
  refine ⟨List.length_map _ _, ?_, ?_⟩
  · intro i
    simp [predict_batch]
  · intro i sid feats hi
    have hslot : (predict_batch m items)[i]? =
        some (predict_one m sid feats) := by
      simp [predict_batch, hi]
    constructor
    · intro hne
      rw [hslot, predict_one, transform, if_neg hne]
    · intro heq
      have hok : (predict_batch m items)[i]? = some (Except.ok
          { student_id := sid
            risk_score := predictProba m
              (standardize m.scaler (List.map Prod.snd feats))
            risk_level := riskLevelOf (predictProba m
              (standardize m.scaler (List.map Prod.snd feats)))
            confidence := confidenceOf (predictProba m
              (standardize m.scaler (List.map Prod.snd feats)))
            contributing_factors := contributingFactors m
              (List.map Prod.snd feats)
              (standardize m.scaler (List.map Prod.snd feats)) }) := by
        rw [hslot, predict_one, transform, if_pos heq]
      exact ⟨_, hok, rfl⟩

/-- Witness for C3: a three-item batch whose middle item has a
malformed (wrong-name) feature vector produces three results, the
middle one an error tagged `"STU002"`, the others successful. -/
theorem predict_batch_per_item_witness :
    (predict_batch demoModel
        [("STU001", [("gpa", 2)]), ("STU002", [("oops", 2)]),
         ("STU003", [("gpa", 4)])]).length = 3 ∧
    (predict_batch demoModel
        [("STU001", [("gpa", 2)]), ("STU002", [("oops", 2)]),
         ("STU003", [("gpa", 4)])])[1]? =
      some (Except.error (BatchItemError.schemaMismatch "STU002")) ∧
    (∃ p, (predict_batch demoModel
        [("STU001", [("gpa", 2)]), ("STU002", [("oops", 2)]),
         ("STU003", [("gpa", 4)])])[0]? = some (Except.ok p) ∧
      p.student_id = "STU001") ∧
    (∃ p, (predict_batch demoModel
        [("STU001", [("gpa", 2)]), ("STU002", [("oops", 2)]),
         ("STU003", [("gpa", 4)])])[2]? = some (Except.ok p) ∧
      p.student_id = "STU003") := by
  have h := predict_batch_per_item demoModel
    [("STU001", [("gpa", 2)]), ("STU002", [("oops", 2)]),
     ("STU003", [("gpa", 4)])]
  refine ⟨h.1, ?_, ?_, ?_⟩
  · exact (h.2.2 1 "STU002" [("oops", 2)] rfl).1 (by decide)
  · exact (h.2.2 0 "STU001" [("gpa", 2)] rfl).2 (by decide)
  · exact (h.2.2 2 "STU003" [("gpa", 4)] rfl).2 (by decide)

/-! ## Theorems: model persistence round trip (C5) -/

/-- **C5.** `load(save(m))` reproduces a model behaviorally identical
to `m`: `predict_one` on any fixed input yields the very same
prediction (hence the same `risk_score` and the same `risk_level`),
and `get_feature_importance` yields the same importances. -/
theorem model_round_trip (m : TrainedModel) :
    ∃ m', load (save m) = some m' ∧
      (∀ sid feats, predict_one m' sid feats = predict_one m sid feats) ∧
      get_feature_importance m' = get_feature_importance m := by
  refine ⟨m, ?_, fun _ _ => rfl, rfl⟩
  rcases m with ⟨algo, coeffs, icpt, ⟨sm, ss⟩, fn, fi, ⟨t, sc, mets⟩⟩
  cases algo <;> rfl

/-! ## Theorems: risk level totality and determinism (C8) -/

/-- **C8.** Every `Prediction`'s `risk_level` is exactly one of
`Low`, `Medium`, `High`; it equals `riskLevelOf risk_score`, so it is
derived deterministically from `risk_score`: two predictions with
equal `risk_score` have equal `risk_level`. -/
theorem prediction_risk_level_deterministic (m : TrainedModel)
    (sid : String) (feats : StudentFeatures) (p : Prediction)
    (hp : predict_one m sid feats = Except.ok p) :
    (p.risk_level = RiskLevel.low ∨ p.risk_level = RiskLevel.medium ∨
      p.risk_level = RiskLevel.high) ∧
    p.risk_level = riskLevelOf p.risk_score ∧
    (∀ (m' : TrainedModel) (sid' : String) (feats' : StudentFeatures)
      (q : Prediction), predict_one m' sid' feats' = Except.ok q →
      p.risk_score = q.risk_score → p.risk_level = q.risk_level) := by
  have key : ∀ (mm : TrainedModel) (s : String) (f : StudentFeatures)
      (r : Prediction), predict_one mm s f = Except.ok r →
      r.risk_level = riskLevelOf r.risk_score := by
    intro mm s f r h
    rw [predict_one] at h
    cases htr : transform mm.feature_names mm.scaler f with
    | error e => rw [htr] at h; cases h
    | ok z =>
        rw [htr] at h
        injection h with h'
        rw [← h']
  refine ⟨?_, key m sid feats p hp, ?_⟩
  · cases hl : p.risk_level
    · exact Or.inl rfl
    · exact Or.inr (Or.inl rfl)
    · exact Or.inr (Or.inr rfl)
  · intro m' sid' feats' q hq hscore
    rw [key m sid feats p hp, key m' sid' feats' q hq, hscore]

/-- Witness for C8 at a concrete model and input: the resulting
prediction's band is one of the three values. -/
theorem prediction_risk_level_deterministic_witness :
    predict_one demoModel "STU001" [("gpa", 2)] =
      Except.ok demoPrediction ∧
    (demoPrediction.risk_level = RiskLevel.low ∨
      demoPrediction.risk_level = RiskLevel.medium ∨
      demoPrediction.risk_level = RiskLevel.high) := by
  have h67 : |(67:ℚ)/100| = 67/100 := abs_of_pos (by norm_num)
  have h33 : |(33:ℚ)/100| = 33/100 := abs_of_pos (by norm_num)
  have hp : predict_one demoModel "STU001" [("gpa", 2)] =
      Except.ok demoPrediction := by
    simp only [predict_one, transform]
    norm_num [demoModel, demoPrediction, standardize, predictProba, clamp01,
      dotProduct, confidenceOf, contributingFactors, sortDescBy, insertDescBy,
      List.lookup, riskLevelOf, h67, h33, inf_eq_min, sup_eq_max, min_def,
      max_def]
  exact ⟨hp, (prediction_risk_level_deterministic demoModel "STU001"
    [("gpa", 2)] demoPrediction hp).1⟩

/-! ## Lemmas for the oversampling analysis -/

theorem countP_const {α : Type} (b : Bool) (l : List α) :
    l.countP (fun _ => b) = if b then l.length else 0 := by
  induction l with
  | nil => cases b <;> simp
  | cons x xs ih => cases b <;> simp_all [List.countP_cons]

theorem countTrue_append (a b : List LabeledSample) :
    countTrue (a ++ b) = countTrue a + countTrue b := by
  rw [countTrue, countTrue, countTrue, List.countP_append]

theorem countFalse_append (a b : List LabeledSample) :
    countFalse (a ++ b) = countFalse a + countFalse b := by
  rw [countFalse, countFalse, countFalse, List.countP_append]

theorem countTrue_synth (t : List LabeledSample) (seed n : ℕ) (lab : Bool) :
    countTrue ((List.range n).map
      (fun i => (syntheticSample (minoritySamples t) (seed + i), lab))) =
      if lab then n else 0 := by
  rw [countTrue, List.countP_map,
    show ((fun s : LabeledSample => s.2) ∘
      (fun i : ℕ => (syntheticSample (minoritySamples t) (seed + i), lab)))
      = (fun _ => lab) from rfl,
    countP_const, List.length_range]

theorem countFalse_synth (t : List LabeledSample) (seed n : ℕ) (lab : Bool) :
    countFalse ((List.range n).map
      (fun i => (syntheticSample (minoritySamples t) (seed + i), lab))) =
      if lab then 0 else n := by
  rw [countFalse, List.countP_map,
    show ((fun s : LabeledSample => !s.2) ∘
      (fun i : ℕ => (syntheticSample (minoritySamples t) (seed + i), lab)))
      = (fun _ => !lab) from rfl,
    countP_const, List.length_range]
  cases lab <;> rfl

theorem mem_insertByDist {a x y : List ℚ} {l : List (List ℚ)}
    (h : y ∈ insertByDist a x l) : y = x ∨ y ∈ l := by
  induction l with
  | nil =>
      rw [insertByDist, List.mem_singleton] at h
      exact Or.inl h
  | cons z zs ih =>
      rw [insertByDist] at h
      split at h
      · rw [List.mem_cons] at h
        rcases h with h | h
        · exact Or.inl h
        · exact Or.inr h
      · rw [List.mem_cons] at h
        rcases h with h | h
        · exact Or.inr (by rw [h]; exact List.mem_cons_self z zs)
        · rcases ih h with h' | h'
          · exact Or.inl h'
          · exact Or.inr (List.mem_cons_of_mem _ h')

theorem mem_sortByDist {a y : List ℚ} {l : List (List ℚ)}
    (h : y ∈ sortByDist a l) : y ∈ l := by
  induction l with
  | nil => simp [sortByDist] at h
  | cons z zs ih =>
      rw [sortByDist] at h
      rcases mem_insertByDist h with h' | h'
      · exact h' ▸ List.mem_cons_self z zs
      · exact List.mem_cons_of_mem _ (ih h')

theorem length_insertByDist (a x : List ℚ) (l : List (List ℚ)) :
    (insertByDist a x l).length = l.length + 1 := by
  induction l with
  | nil => rfl
  | cons z zs ih =>
      rw [insertByDist]
      split <;> simp [ih]

theorem length_sortByDist (a : List ℚ) (l : List (List ℚ)) :
    (sortByDist a l).length = l.length := by
  induction l with
  | nil => rfl
  | cons z zs ih => rw [sortByDist, length_insertByDist, ih]; rfl

theorem pick_mem (l : List (List ℚ)) (d : List ℚ) (i : ℕ)
    (h : 0 < l.length) : l.getD (i % l.length) d ∈ l := by
  rw [List.getD_eq_getElem l d (Nat.mod_lt _ h)]
  exact List.getElem_mem _

theorem syntheticSample_spec (minority : List (List ℚ)) (seed : ℕ)
    (h : minority ≠ []) :
    ∃ a b lam, a ∈ minority ∧ b ∈ nearestNeighbors 5 a minority ∧
      b ∈ minority ∧ 0 ≤ lam ∧ lam ≤ 1 ∧
      syntheticSample minority seed = interpolate a b lam := by
  cases minority with
  | nil => exact absurd rfl h
  | cons m0 rest =>
      have hlen : 0 < (m0 :: rest).length := Nat.succ_pos _
      have hnb : ∀ aa : List ℚ,
          0 < (nearestNeighbors 5 aa (m0 :: rest)).length := by
        intro aa
        rw [nearestNeighbors, List.length_take, length_sortByDist]
        exact lt_min (by norm_num) hlen
      have hnbsub : ∀ aa x : List ℚ,
          x ∈ nearestNeighbors 5 aa (m0 :: rest) → x ∈ m0 :: rest := by
        intro aa x hx
        rw [nearestNeighbors] at hx
        exact mem_sortByDist (List.take_subset _ _ hx)
      refine ⟨_, _, _, ?_, ?_, ?_, ?_, ?_, rfl⟩
      · exact pick_mem _ m0 _ hlen
      · exact pick_mem _ _ _ (hnb _)
      · exact hnbsub _ _ (pick_mem _ _ _ (hnb _))
      · exact div_nonneg (Nat.cast_nonneg _) (by norm_num)
      · rw [div_le_one (by norm_num)]
        exact_mod_cast (Nat.mod_lt (lcgNext (lcgNext (lcgNext seed)))
          (by norm_num : (0:ℕ) < 1000)).le

theorem minoritySamples_ne_nil {t : List LabeledSample}
    (hpos : 1 ≤ countTrue t) (hneg : 1 ≤ countFalse t) :
    minoritySamples t ≠ [] := by
  intro hnil
  rw [minoritySamples] at hnil
  split at hnil
  · have := List.map_eq_nil_iff.mp hnil
    have hc : countTrue t = 0 := by
      rw [countTrue, List.countP_eq_length_filter, this]
      rfl
    omega
  · have := List.map_eq_nil_iff.mp hnil
    have hc : countFalse t = 0 := by
      rw [countFalse, List.countP_eq_length_filter, this]
      rfl
    omega

/-! ## Theorems: class-imbalance correction (C6) -/

/-- **C6.** After the Trainer's class-imbalance correction, the two
class counts in the training split are equal (difference 0, within
any rounding tolerance); every sample of the corrected training split
is either an original sample or a synthetic minority-labeled sample
interpolated between a minority sample and one of its nearest
minority neighbors (with interpolation factor in `[0,1]`); and the
validation split is left untouched. -/
theorem imbalance_correction_balances (seed : ℕ) (s : TrainValidSplit)
    (hpos : 1 ≤ countTrue s.train) (hneg : 1 ≤ countFalse s.train) :
    countTrue (applyImbalanceCorrection seed s).train =
      countFalse (applyImbalanceCorrection seed s).train ∧
    (applyImbalanceCorrection seed s).valid = s.valid ∧
    (∀ x ∈ (applyImbalanceCorrection seed s).train,
      x ∈ s.train ∨
      (x.2 = minorityLabel s.train ∧
        ∃ a b lam, a ∈ minoritySamples s.train ∧
          b ∈ nearestNeighbors 5 a (minoritySamples s.train) ∧
          b ∈ minoritySamples s.train ∧ 0 ≤ lam ∧ lam ≤ 1 ∧
          x.1 = interpolate a b lam)) := by
  refine ⟨?_, rfl, ?_⟩
  · show countTrue (classBalance seed s.train) =
      countFalse (classBalance seed s.train)
    rw [classBalance]
    split
    · assumption
    · rename_i hne
      rw [countTrue_append, countFalse_append, countTrue_synth,
        countFalse_synth]
      rcases Nat.lt_trichotomy (countTrue s.train) (countFalse s.train)
        with hlt | heq | hgt
      · have hlab : minorityLabel s.train = true := by
          rw [minorityLabel]
          exact decide_eq_true hlt
        rw [hlab, Nat.max_eq_right hlt.le, Nat.min_eq_left hlt.le,
          if_pos rfl, if_pos rfl]
        omega
      · exact absurd heq hne
      · have hlab : minorityLabel s.train = false := by
          rw [minorityLabel]
          exact decide_eq_false (by omega)
        rw [hlab, Nat.max_eq_left hgt.le, Nat.min_eq_right hgt.le,
          if_neg Bool.false_ne_true, if_neg Bool.false_ne_true]
        omega
  · intro x hx
    show x ∈ s.train ∨ _
    rw [show (applyImbalanceCorrection seed s).train =
      classBalance seed s.train from rfl, classBalance] at hx
    split at hx
    · exact Or.inl hx
    · rw [List.mem_append] at hx
      rcases hx with hx | hx
      · exact Or.inl hx
      · right
        rw [List.mem_map] at hx
        obtain ⟨i, hi, hxeq⟩ := hx
        obtain ⟨a, b, lam, h1, h2, h3, h4, h5, h6⟩ :=
          syntheticSample_spec (minoritySamples s.train) (seed + i)
            (minoritySamples_ne_nil hpos hneg)
        refine ⟨by rw [← hxeq], a, b, lam, h1, h2, h3, h4, h5, ?_⟩
        rw [← hxeq]
        exact h6

/-- Witness for C6: a 3-sample training split (two positive, one
negative) together with a validation split; the hypotheses hold and
the balanced counts agree. -/
theorem imbalance_correction_balances_witness :
    1 ≤ countTrue [([(1:ℚ)], true), ([2], true), ([3], false)] ∧
    1 ≤ countFalse [([(1:ℚ)], true), ([2], true), ([3], false)] ∧
    countTrue (applyImbalanceCorrection 42
      { train := [([(1:ℚ)], true), ([2], true), ([3], false)],
        valid := [([4], false)] }).train =
      countFalse (applyImbalanceCorrection 42
      { train := [([(1:ℚ)], true), ([2], true), ([3], false)],
        valid := [([4], false)] }).train ∧
    (applyImbalanceCorrection 42
      { train := [([(1:ℚ)], true), ([2], true), ([3], false)],
        valid := [([4], false)] }).valid = [([4], false)] := by
  have h := imbalance_correction_balances 42
    { train := [([(1:ℚ)], true), ([2], true), ([3], false)],
      valid := [([4], false)] } (by decide) (by decide)
  exact ⟨by decide, by decide, h.1, h.2.1⟩

/-! ## Theorems: training preconditions and the store (C7) -/

/-- **C7.** Training on a dataset with fewer than two examples of
either class fails with `InsufficientDataError`; and every failing
training call stores no partial model — the Model Store's current
model is returned unchanged. -/
theorem train_insufficient_no_partial_store (dataset : List LabeledSample)
    (algo : Algorithm) (validation_split : ℚ) (seed : ℕ) :
    ((countTrue dataset < 2 ∨ countFalse dataset < 2) →
      train dataset algo validation_split seed =
        Except.error MLError.insufficientData) ∧
    (∀ (store : ModelStore) (save_model : Bool) (e : MLError),
      train dataset algo validation_split seed = Except.error e →
      (train_and_store store dataset algo validation_split seed
        save_model).1 = store) := by
  constructor
  · intro h
    rw [train, if_pos h]
  · intro store save_model e he
    rw [train_and_store, he]

/-- Witness for C7: a one-example dataset fails with
`InsufficientDataError` and leaves an empty store empty. -/
theorem train_insufficient_no_partial_store_witness :
    train [([(0:ℚ)], true)] Algorithm.random_forest (1/5) 42 =
      Except.error MLError.insufficientData ∧
    (train_and_store { current := none } [([(0:ℚ)], true)]
      Algorithm.random_forest (1/5) 42 true).1 = { current := none } := by
  have h := train_insufficient_no_partial_store [([(0:ℚ)], true)]
    Algorithm.random_forest (1/5) 42
  have h1 := h.1 (Or.inr (by decide))
  exact ⟨h1, h.2 { current := none } true MLError.insufficientData h1⟩

/-! ## Theorems: atomic model replacement (C9) -/

theorem runStore_mem (init : Option TrainedModel) (ops : List StoreOp) :
    ∀ obs ∈ runStore init ops,
      obs = init ∨ ∃ m, StoreOp.swap m ∈ ops ∧ obs = some m := by
  induction ops generalizing init with
  | nil => intro obs h; simp [runStore] at h
  | cons op ops ih =>
      cases op with
      | swap m =>
          intro obs h
          rw [show runStore init (StoreOp.swap m :: ops) =
            runStore (some m) ops from rfl] at h
          rcases ih (some m) obs h with h1 | ⟨m', hm', h2⟩
          · exact Or.inr ⟨m, List.mem_cons_self _ _, h1⟩
          · exact Or.inr ⟨m', List.mem_cons_of_mem _ hm', h2⟩
      | read =>
          intro obs h
          rw [show runStore init (StoreOp.read :: ops) =
            init :: runStore init ops from rfl, List.mem_cons] at h
          rcases h with rfl | h
          · exact Or.inl rfl
          · rcases ih init obs h with h1 | ⟨m', hm', h2⟩
            · exact Or.inl h1
            · exact Or.inr ⟨m', List.mem_cons_of_mem _ hm', h2⟩

/-- **C9.** The store holds at most one current model (its state is a
single optional reference), and under the spec's atomic-swap
semantics every reader observation in every interleaving of swaps and
reads is the initial reference or a swapped-in model in full: in
particular any observed model's scaler, classifier coefficients and
schema all come from one and the same written model — never a mixed
state pairing an old scaler with a new classifier. -/
theorem store_swap_atomic (init : Option TrainedModel)
    (ops : List StoreOp) :
    ∀ obs ∈ runStore init ops,
      (obs = init ∨ ∃ m, StoreOp.swap m ∈ ops ∧ obs = some m) ∧
      (∀ mdl, obs = some mdl →
        ∃ src, (init = some src ∨ StoreOp.swap src ∈ ops) ∧
          mdl.scaler = src.scaler ∧
          mdl.coefficients = src.coefficients ∧
          mdl.feature_names = src.feature_names) := by
  intro obs hobs
  refine ⟨runStore_mem init ops obs hobs, ?_⟩
  intro mdl hmdl
  rcases runStore_mem init ops obs hobs with h1 | ⟨m, hm, h2⟩
  · exact ⟨mdl, Or.inl (h1 ▸ hmdl ▸ rfl), rfl, rfl, rfl⟩
  · refine ⟨m, Or.inr hm, ?_, ?_, ?_⟩ <;>
      · have : some mdl = some m := hmdl ▸ h2
        injection this with h3
        rw [h3]

/-- Witness for C9: after an atomic swap installing `demoModel` into
an empty store, the single reader observation is `demoModel` in
full. -/
theorem store_swap_atomic_witness :
    some demoModel ∈ runStore none [StoreOp.swap demoModel, StoreOp.read] ∧
    (some demoModel = (none : Option TrainedModel) ∨
      ∃ m, StoreOp.swap m ∈ [StoreOp.swap demoModel, StoreOp.read] ∧
        some demoModel = some m) := by
  have hmem : some demoModel ∈
      runStore none [StoreOp.swap demoModel, StoreOp.read] := by
    rw [show runStore none [StoreOp.swap demoModel, StoreOp.read] =
      [some demoModel] from rfl]
    exact List.mem_singleton.mpr rfl
  exact ⟨hmem, (store_swap_atomic none [StoreOp.swap demoModel,
    StoreOp.read] (some demoModel) hmem).1⟩

/-! ## Theorems: SQL student-row defaults (C10) -/

/-- **C10.** A student row created through the `students` table
without an explicit risk assessment is stored with
`risk_level = 'low'` and `risk_score = 0`: a student who has never
been scored is reported as low risk with score 0, not as unknown or
worst-case. -/
theorem students_default_low_risk (r : StudentInsertRow)
    (hlevel : r.risk_level = none) (hscore : r.risk_score = none) :
    (insertStudent r).risk_level = RiskLevel.low ∧
    (insertStudent r).risk_score = 0 := by
  rw [insertStudent]
  constructor
  · show (r.risk_level.getD RiskLevel.low) = RiskLevel.low
    rw [hlevel]
    rfl
  · show (r.risk_score.getD 0) = 0
    rw [hscore]
    rfl

/-- Witness for C10: a concrete insert without risk columns. -/
theorem students_default_low_risk_witness :
    (insertStudent
      { student_id := "STU042", full_name := "A B", email := "a@b.c",
        department := "CS", semester := none,
        attendance_percentage := none, gpa := none, risk_level := none,
        risk_score := none, assigned_counselor_id := none }).risk_level =
      RiskLevel.low ∧
    (insertStudent
      { student_id := "STU042", full_name := "A B", email := "a@b.c",
        department := "CS", semester := none,
        attendance_percentage := none, gpa := none, risk_level := none,
        risk_score := none, assigned_counselor_id := none }).risk_score =
      0 :=
  students_default_low_risk _ rfl rfl

end GuardianCompass
